import Mathlib

/-!
Formal model of `clusterman/batch/autoscaler_bootstrap.py`.

The file embeds the two pieces of that module that carry the control-flow
logic:

* `wait_for_process` — the polling loop that waits for every instance of a
  supervisord process group to reach a terminal state, retrying on `OSError`
  and aborting on any `FATAL` instance state; and

* `AutoscalerBootstrapBatch.run` — the lifecycle controller: spawn the
  supervisord subprocess, drive the fetch/run/autoscaler startup sequence
  inside a `try ... except KeyboardInterrupt ... finally` block, and wait for
  the supervisord subprocess after the `with` block.

The supervisord RPC endpoint is modelled as an environment (an oracle): for
`wait_for_process`, a function giving the outcome of each `getProcessInfo`
call, indexed by poll number and instance index; for `run`, the observable
outcome of each region of the `try` block.  The unbounded `while True` loops
are given fuel; exhausting fuel means "the real loop would still be running".
Traces of observable events (RPC queries, sleeps, start commands, shutdown,
the final subprocess wait) are returned alongside results so that ordering
and cleanup claims can be stated.
-/

set_option maxRecDepth 2048

/-- Outcome of one `rpc.supervisor.getProcessInfo(...)["statename"]` call:
either it returns a state name, or it raises `OSError` (caught by
`wait_for_process`), or it raises some other exception (not caught). -/
inductive QueryResult where
  | ok (statename : String)
  | osError
  | exn
deriving DecidableEq, Repr

/-- Outcome of the whole list comprehension
`[rpc.supervisor.getProcessInfo(...)["statename"] for i in range(num_procs)]`:
either every call returned and we have the list of state names, or the call
for instance `i` raised (`OSError` or another exception), discarding the
states already collected. -/
inductive PollResult where
  | states (l : List String)
  | osError (i : Nat)
  | exn (i : Nat)
deriving DecidableEq, Repr

/-- Evaluate the comprehension from instance `i` with `k` instances left,
`acc` holding (reversed) the states collected so far. -/
def collectStatesAux (q : Nat → QueryResult) : Nat → Nat → List String → PollResult
  | _, 0, acc => PollResult.states acc.reverse
  | i, k + 1, acc =>
    match q i with
    | QueryResult.ok s => collectStatesAux q (i + 1) k (s :: acc)
    | QueryResult.osError => PollResult.osError i
    | QueryResult.exn => PollResult.exn i

/-- The comprehension over `range(num_procs)`: query instances `0, 1, ...`
in order, stopping at the first call that raises. -/
def collectStates (q : Nat → QueryResult) (num_procs : Nat) : PollResult :=
  collectStatesAux q 0 num_procs []

/-- The instance identifier `f"{process_name}:{process_name}_{i}"` passed to
`getProcessInfo`. -/
def processId (process_name : String) (i : Nat) : String :=
  process_name ++ ":" ++ process_name ++ "_" ++ toString i

/-- How many `getProcessInfo` calls one evaluation of the comprehension
issues: all `num_procs` of them when every call returns, and `i + 1` when the
call for instance `i` raises. -/
def pollQueryCount (q : Nat → QueryResult) (num_procs : Nat) : Nat :=
  match collectStates q num_procs with
  | PollResult.states _ => num_procs
  | PollResult.osError i => i + 1
  | PollResult.exn i => i + 1

/-- Observable events of `wait_for_process`: a `getProcessInfo` call with the
identifier string it was given, and a `time.sleep(1)`. -/
inductive WaitEvent where
  | query (pid : String)
  | sleep
deriving DecidableEq, Repr

/-- The `getProcessInfo` calls issued by one evaluation of the comprehension,
in order. -/
def pollEvents (process_name : String) (num_procs : Nat) (q : Nat → QueryResult) :
    List WaitEvent :=
  (List.range (pollQueryCount q num_procs)).map (fun i => WaitEvent.query (processId process_name i))

/-- How a call of `wait_for_process` ends: normal return, raising
`AutoscalerBootstrapException` with the given message, propagating a
non-`OSError` exception from a query, or running out of fuel (the real loop
would still be polling). -/
inductive WaitResult where
  | success
  | fatalExn (msg : String)
  | propagate
  | fuelExhausted
deriving DecidableEq, Repr

/-- The `while True:` loop of `wait_for_process`, from poll number `poll`,
with fuel.  Each iteration evaluates the comprehension; on `OSError` it
sleeps 1 and retries; on another exception it propagates; otherwise, if any
state is `"FATAL"` it raises `AutoscalerBootstrapException`, if all states
equal `terminal_state` it breaks, and otherwise it sleeps 1 and loops. -/
def waitLoop (env : Nat → Nat → QueryResult) (process_name : String) (num_procs : Nat)
    (terminal_state : String) : Nat → Nat → WaitResult × List WaitEvent
  | _, 0 => (WaitResult.fuelExhausted, [])
  | poll, fuel + 1 =>
    match collectStates (env poll) num_procs with
    | PollResult.osError _ =>
      let r := waitLoop env process_name num_procs terminal_state (poll + 1) fuel
      (r.1, pollEvents process_name num_procs (env poll) ++ WaitEvent.sleep :: r.2)
    | PollResult.exn _ =>
      (WaitResult.propagate, pollEvents process_name num_procs (env poll))
    | PollResult.states states =>
      if states.any (fun state => state == "FATAL") then
        (WaitResult.fatalExn ("Process " ++ process_name ++ " could not start; aborting"),
          pollEvents process_name num_procs (env poll))
      else if states.all (fun state => state == terminal_state) then
        (WaitResult.success, pollEvents process_name num_procs (env poll))
      else
        let r := waitLoop env process_name num_procs terminal_state (poll + 1) fuel
        (r.1, pollEvents process_name num_procs (env poll) ++ WaitEvent.sleep :: r.2)

/-- `wait_for_process(rpc, process_name, num_procs, terminal_state)` (the
source defaults are `num_procs=1`, `terminal_state="RUNNING"`), with `env`
standing for the RPC endpoint and `fuel` bounding the number of loop
iterations observed. -/
def wait_for_process (env : Nat → Nat → QueryResult) (process_name : String)
    (num_procs : Nat) (terminal_state : String) (fuel : Nat) :
    WaitResult × List WaitEvent :=
  waitLoop env process_name num_procs terminal_state 0 fuel

/-- Classification of one poll, exactly mirroring the branch taken by the
loop body: `retry` (an `OSError`, or a mixed/pending state list), `exn`
(a non-`OSError` exception), `fatal` (some collected state is `"FATAL"`),
`done` (all collected states equal the terminal state). -/
inductive PollClass where
  | retry
  | fatal
  | done
  | exn
deriving DecidableEq, Repr

/-- Which branch the loop body takes on poll number `poll`. -/
def classifyPoll (env : Nat → Nat → QueryResult) (num_procs : Nat)
    (terminal_state : String) (poll : Nat) : PollClass :=
  match collectStates (env poll) num_procs with
  | PollResult.osError _ => PollClass.retry
  | PollResult.exn _ => PollClass.exn
  | PollResult.states states =>
    if states.any (fun state => state == "FATAL") then PollClass.fatal
    else if states.all (fun state => state == terminal_state) then PollClass.done
    else PollClass.retry

/-- The result `wait_for_process` produces when a poll of the given class is
the first one that does not loop. -/
def classResult (process_name : String) : PollClass → WaitResult
  | PollClass.retry => WaitResult.fuelExhausted
  | PollClass.fatal =>
      WaitResult.fatalExn ("Process " ++ process_name ++ " could not start; aborting")
  | PollClass.done => WaitResult.success
  | PollClass.exn => WaitResult.propagate

/-- `SUPERVISORD_RUNNING_STATES = ("STARTING", "RUNNING")`. -/
def SUPERVISORD_RUNNING_STATES : List String := ["STARTING", "RUNNING"]

/-- Observable outcome of one region of the `try` block of
`AutoscalerBootstrapBatch.run`: it completed normally, it raised
`AutoscalerBootstrapException`, it raised some other non-interrupt exception
(e.g. an `OSError` from an unguarded RPC call), or a `KeyboardInterrupt`
arrived while it ran. -/
inductive PhaseRes where
  | ok
  | raisesFatal
  | raisesOther
  | interrupted
deriving DecidableEq, Repr, Fintype

/-- The three exception kinds `run` distinguishes: only `interrupt`
(`KeyboardInterrupt`) is caught by the `except` clause. -/
inductive Exc where
  | fatal
  | other
  | interrupt
deriving DecidableEq, Repr

/-- The exception (if any) a region with the given outcome raises. -/
def phaseExc : PhaseRes → Option Exc
  | PhaseRes.ok => none
  | PhaseRes.raisesFatal => some Exc.fatal
  | PhaseRes.raisesOther => some Exc.other
  | PhaseRes.interrupted => some Exc.interrupt

/-- Observable events of `run`, in the order the corresponding source lines
execute: spawning the supervisord subprocess, entering / successfully
returning from a `wait_for_process` call (group name and terminal state),
`startProcessGroup`, `startProcess`, entering the steady-state poll loop on
the autoscaler, `rpc.supervisor.shutdown()`, and `supervisord_proc.wait()`. -/
inductive RunEvent where
  | spawnDaemon
  | waitStart (group terminal : String)
  | waitDone (group terminal : String)
  | startGroup (group : String)
  | startProcess (name : String)
  | steadyPoll
  | shutdown
  | daemonWait
deriving DecidableEq, Repr

/-- Environment for one execution of `run`: the outcome of each region of
the `try` block, in source order — the fetch-signals wait, the
`startProcessGroup("run_signals")` call, the run-signals wait, the
`startProcess("autoscaler")` call, and the steady-state `while` loop
(whose `ok` outcome means the loop condition went false: `self.running`
flipped or the autoscaler left `SUPERVISORD_RUNNING_STATES`). -/
structure RunEnv where
  fetchWait : PhaseRes
  startRun : PhaseRes
  runWait : PhaseRes
  startAuto : PhaseRes
  steady : PhaseRes
deriving DecidableEq, Repr, Fintype

/-- The `try` block of `run`: execute the five regions in order, stopping at
the first one that raises; return the events of the lines reached and the
exception, if any. -/
def tryBlock (env : RunEnv) : List RunEvent × Option Exc :=
  let p1 := [RunEvent.waitStart "fetch_signals" "EXITED"]
  match phaseExc env.fetchWait with
  | some e => (p1, some e)
  | none =>
    let p2 := p1 ++ [RunEvent.waitDone "fetch_signals" "EXITED",
                     RunEvent.startGroup "run_signals"]
    match phaseExc env.startRun with
    | some e => (p2, some e)
    | none =>
      let p3 := p2 ++ [RunEvent.waitStart "run_signals" "RUNNING"]
      match phaseExc env.runWait with
      | some e => (p3, some e)
      | none =>
        let p4 := p3 ++ [RunEvent.waitDone "run_signals" "RUNNING",
                         RunEvent.startProcess "autoscaler"]
        match phaseExc env.startAuto with
        | some e => (p4, some e)
        | none =>
          let p5 := p4 ++ [RunEvent.steadyPoll]
          match phaseExc env.steady with
          | some e => (p5, some e)
          | none => (p5, none)

/-- How `run` returns to its caller: normally, or by propagating an
exception (`KeyboardInterrupt` is swallowed by the `except` clause and leads
to a normal return). -/
inductive RunResult where
  | normal
  | raised (e : Exc)
deriving DecidableEq, Repr

/-- `AutoscalerBootstrapBatch.run`: spawn supervisord, run the `try` block;
the `finally` clause calls `rpc.supervisor.shutdown()` unless
`skip_supervisord_cleanup` was set by the `except KeyboardInterrupt` handler;
`supervisord_proc.wait()` stands after the `with` block, so it only runs when
no exception is propagating (i.e. on normal completion, or after a caught
`KeyboardInterrupt`). -/
def runBatch (env : RunEnv) : RunResult × List RunEvent :=
  let t := tryBlock env
  let pre := RunEvent.spawnDaemon :: t.1
  match t.2 with
  | none =>
    (RunResult.normal, pre ++ [RunEvent.shutdown, RunEvent.daemonWait])
  | some Exc.interrupt =>
    (RunResult.normal, pre ++ [RunEvent.daemonWait])
  | some Exc.fatal =>
    (RunResult.raised Exc.fatal, pre ++ [RunEvent.shutdown])
  | some Exc.other =>
    (RunResult.raised Exc.other, pre ++ [RunEvent.shutdown])

/-- The steady-state loop
`while self.running and rpc.supervisor.getProcessInfo("autoscaler")["statename"] in SUPERVISORD_RUNNING_STATES: time.sleep(5)`
in isolation.  `running i` is the value of `self.running` read at iteration
`i`, `auto i` the outcome of that iteration's `getProcessInfo("autoscaler")`
call.  There is no exception handler here: a raising call (e.g. an `OSError`
on a connectivity failure) propagates out of the loop, so the region's
outcome is `raisesOther`.  `none` means the fuel ran out while the loop was
still spinning. -/
def steadyStateLoop (running : Nat → Bool) (auto : Nat → QueryResult) :
    Nat → Nat → Option PhaseRes
  | _, 0 => none
  | i, fuel + 1 =>
    if running i then
      match auto i with
      | QueryResult.ok s =>
        if SUPERVISORD_RUNNING_STATES.contains s then
          steadyStateLoop running auto (i + 1) fuel
        else some PhaseRes.ok
      | QueryResult.osError => some PhaseRes.raisesOther
      | QueryResult.exn => some PhaseRes.raisesOther
    else some PhaseRes.ok

lemma count_sleep_pollEvents (process_name : String) (num_procs : Nat)
    (q : Nat → QueryResult) :
    (pollEvents process_name num_procs q).count WaitEvent.sleep = 0 := by
  simp [pollEvents, List.count_eq_zero, List.mem_map]

lemma waitLoop_succ (env : Nat → Nat → QueryResult) (process_name : String)
    (num_procs : Nat) (terminal_state : String) (poll fuel : Nat) :
    waitLoop env process_name num_procs terminal_state poll (fuel + 1) =
      match classifyPoll env num_procs terminal_state poll with
      | PollClass.retry =>
        ((waitLoop env process_name num_procs terminal_state (poll + 1) fuel).1,
          pollEvents process_name num_procs (env poll) ++
            WaitEvent.sleep ::
              (waitLoop env process_name num_procs terminal_state (poll + 1) fuel).2)
      | c => (classResult process_name c, pollEvents process_name num_procs (env poll)) := by
  simp only [waitLoop, classifyPoll]
  cases h : collectStates (env poll) num_procs with
  | osError i => rfl
  | exn i => rfl
  | states states =>
    by_cases ha : states.any (fun state => state == "FATAL")
    · simp [ha, classResult]
    · by_cases hb : states.all (fun state => state == terminal_state)
      · simp [ha, hb, classResult]
      · simp [ha, hb, classResult]

lemma waitLoop_decisive (env : Nat → Nat → QueryResult) (process_name : String)
    (num_procs : Nat) (terminal_state : String) :
    ∀ (k poll fuel : Nat), k < fuel →
      (∀ j, j < k → classifyPoll env num_procs terminal_state (poll + j) = PollClass.retry) →
      classifyPoll env num_procs terminal_state (poll + k) ≠ PollClass.retry →
      (waitLoop env process_name num_procs terminal_state poll fuel).1 =
          classResult process_name (classifyPoll env num_procs terminal_state (poll + k)) ∧
        ((waitLoop env process_name num_procs terminal_state poll fuel).2).count
            WaitEvent.sleep = k := by
  intro k
  induction k with
  | zero =>
    intro poll fuel hfuel _ hdec
    obtain ⟨f, rfl⟩ : ∃ f, fuel = f + 1 := ⟨fuel - 1, by omega⟩
    rw [waitLoop_succ]
    simp only [Nat.add_zero] at hdec ⊢
    cases hc : classifyPoll env num_procs terminal_state poll with
    | retry => exact absurd hc hdec
    | fatal => simp [count_sleep_pollEvents]
    | done => simp [count_sleep_pollEvents]
    | exn => simp [count_sleep_pollEvents]
  | succ k ih =>
    intro poll fuel hfuel hretry hdec
    obtain ⟨f, rfl⟩ : ∃ f, fuel = f + 1 := ⟨fuel - 1, by omega⟩
    have h0 : classifyPoll env num_procs terminal_state poll = PollClass.retry := by
      have h := hretry 0 (Nat.succ_pos k)
      simpa using h
    rw [waitLoop_succ, h0]
    have hretry2 : ∀ j, j < k →
        classifyPoll env num_procs terminal_state (poll + 1 + j) = PollClass.retry := by
      intro j hj
      have h := hretry (j + 1) (by omega)
      have e : poll + (j + 1) = poll + 1 + j := by omega
      rw [e] at h
      exact h
    have hdec2 : classifyPoll env num_procs terminal_state (poll + 1 + k) ≠ PollClass.retry := by
      have e : poll + 1 + k = poll + (k + 1) := by omega
      rw [e]
      exact hdec
    have IH := ih (poll + 1) f (by omega) hretry2 hdec2
    have e : poll + 1 + k = poll + (k + 1) := by omega
    rw [e] at IH
    refine ⟨IH.1, ?_⟩
    simp [List.count_append, count_sleep_pollEvents, IH.2]

lemma waitLoop_success_iff (env : Nat → Nat → QueryResult) (process_name : String)
    (num_procs : Nat) (terminal_state : String) :
    ∀ (fuel poll : Nat),
      (waitLoop env process_name num_procs terminal_state poll fuel).1 = WaitResult.success ↔
        ∃ k, k < fuel ∧
          classifyPoll env num_procs terminal_state (poll + k) = PollClass.done ∧
          ∀ j, j < k → classifyPoll env num_procs terminal_state (poll + j) = PollClass.retry := by
  intro fuel
  induction fuel with
  | zero =>
    intro poll
    simp [waitLoop]
  | succ f ih =>
    intro poll
    rw [waitLoop_succ]
    cases hc : classifyPoll env num_procs terminal_state poll with
    | retry =>
      simp only []
      constructor
      · intro h
        obtain ⟨k, hk, hdone, hr⟩ := (ih (poll + 1)).1 h
        refine ⟨k + 1, by omega, ?_, ?_⟩
        · have e : poll + (k + 1) = poll + 1 + k := by omega
          rw [e]
          exact hdone
        · intro j hj
          cases j with
          | zero => simpa using hc
          | succ j =>
            have e : poll + (j + 1) = poll + 1 + j := by omega
            rw [e]
            exact hr j (by omega)
      · rintro ⟨k, hk, hdone, hr⟩
        cases k with
        | zero =>
          rw [Nat.add_zero] at hdone
          rw [hdone] at hc
          exact absurd hc (by simp)
        | succ k =>
          apply (ih (poll + 1)).2
          refine ⟨k, by omega, ?_, ?_⟩
          · have e : poll + 1 + k = poll + (k + 1) := by omega
            rw [e]
            exact hdone
          · intro j hj
            have e : poll + 1 + j = poll + (j + 1) := by omega
            rw [e]
            exact hr (j + 1) (by omega)
    | fatal =>
      simp only [classResult]
      constructor
      · intro h
        exact absurd h (by simp)
      · rintro ⟨k, hk, hdone, hr⟩
        cases k with
        | zero =>
          rw [Nat.add_zero] at hdone
          rw [hdone] at hc
          cases hc
        | succ k =>
          have h := hr 0 (Nat.succ_pos k)
          rw [Nat.add_zero] at h
          rw [h] at hc
          cases hc
    | done =>
      simp only [classResult]
      constructor
      · intro _
        exact ⟨0, Nat.succ_pos f, by simpa using hc, by omega⟩
      · intro _
        trivial
    | exn =>
      simp only [classResult]
      constructor
      · intro h
        exact absurd h (by simp)
      · rintro ⟨k, hk, hdone, hr⟩
        cases k with
        | zero =>
          rw [Nat.add_zero] at hdone
          rw [hdone] at hc
          cases hc
        | succ k =>
          have h := hr 0 (Nat.succ_pos k)
          rw [Nat.add_zero] at h
          rw [h] at hc
          cases hc

lemma collectStatesAux_osError_lt (q : Nat → QueryResult) :
    ∀ (k i : Nat) (acc : List String) (j : Nat),
      collectStatesAux q i k acc = PollResult.osError j → j < i + k := by
  intro k
  induction k with
  | zero =>
    intro i acc j h
    simp [collectStatesAux] at h
  | succ k ih =>
    intro i acc j h
    rw [collectStatesAux] at h
    cases hq : q i with
    | ok s =>
      rw [hq] at h
      have := ih (i + 1) (s :: acc) j h
      omega
    | osError =>
      rw [hq] at h
      cases h
      omega
    | exn =>
      rw [hq] at h
      cases h

lemma collectStatesAux_exn_lt (q : Nat → QueryResult) :
    ∀ (k i : Nat) (acc : List String) (j : Nat),
      collectStatesAux q i k acc = PollResult.exn j → j < i + k := by
  intro k
  induction k with
  | zero =>
    intro i acc j h
    simp [collectStatesAux] at h
  | succ k ih =>
    intro i acc j h
    rw [collectStatesAux] at h
    cases hq : q i with
    | ok s =>
      rw [hq] at h
      have := ih (i + 1) (s :: acc) j h
      omega
    | osError =>
      rw [hq] at h
      cases h
    | exn =>
      rw [hq] at h
      cases h
      omega

lemma pollQueryCount_le (q : Nat → QueryResult) (num_procs : Nat) :
    pollQueryCount q num_procs ≤ num_procs := by
  unfold pollQueryCount
  cases h : collectStates q num_procs with
  | states l => exact Nat.le_refl _
  | osError i =>
    have := collectStatesAux_osError_lt q num_procs 0 [] i h
    show i + 1 ≤ num_procs
    omega
  | exn i =>
    have := collectStatesAux_exn_lt q num_procs 0 [] i h
    show i + 1 ≤ num_procs
    omega

lemma mem_pollEvents (process_name : String) (num_procs : Nat) (q : Nat → QueryResult)
    (pid : String) (h : WaitEvent.query pid ∈ pollEvents process_name num_procs q) :
    ∃ i, i < num_procs ∧ pid = processId process_name i := by
  rw [pollEvents, List.mem_map] at h
  obtain ⟨i, hi, heq⟩ := h
  rw [List.mem_range] at hi
  refine ⟨i, ?_, ?_⟩
  · exact Nat.lt_of_lt_of_le hi (pollQueryCount_le q num_procs)
  · cases heq
    rfl

lemma mem_query_waitLoop (env : Nat → Nat → QueryResult) (process_name : String)
    (num_procs : Nat) (terminal_state : String) :
    ∀ (fuel poll : Nat) (pid : String),
      WaitEvent.query pid ∈ (waitLoop env process_name num_procs terminal_state poll fuel).2 →
      ∃ i, i < num_procs ∧ pid = processId process_name i := by
  intro fuel
  induction fuel with
  | zero =>
    intro poll pid h
    simp [waitLoop] at h
  | succ f ih =>
    intro poll pid h
    rw [waitLoop_succ] at h
    cases hc : classifyPoll env num_procs terminal_state poll with
    | retry =>
      rw [hc] at h
      simp only [List.mem_append, List.mem_cons] at h
      rcases h with h | h | h
      · exact mem_pollEvents process_name num_procs (env poll) pid h
      · cases h
      · exact ih (poll + 1) pid h
    | fatal =>
      rw [hc] at h
      exact mem_pollEvents process_name num_procs (env poll) pid h
    | done =>
      rw [hc] at h
      exact mem_pollEvents process_name num_procs (env poll) pid h
    | exn =>
      rw [hc] at h
      exact mem_pollEvents process_name num_procs (env poll) pid h

lemma classifyPoll_osError (env : Nat → Nat → QueryResult) (num_procs : Nat)
    (terminal_state : String) (poll i : Nat)
    (h : collectStates (env poll) num_procs = PollResult.osError i) :
    classifyPoll env num_procs terminal_state poll = PollClass.retry := by
  simp [classifyPoll, h]

lemma waitLoop_all_retry (env : Nat → Nat → QueryResult) (process_name : String)
    (num_procs : Nat) (terminal_state : String)
    (h : ∀ p, classifyPoll env num_procs terminal_state p = PollClass.retry) :
    ∀ (fuel poll : Nat),
      (waitLoop env process_name num_procs terminal_state poll fuel).1 =
        WaitResult.fuelExhausted := by
  intro fuel
  induction fuel with
  | zero =>
    intro poll
    simp [waitLoop]
  | succ f ih =>
    intro poll
    rw [waitLoop_succ, h poll]
    exact ih (poll + 1)

/-- Environment in which every instance reports `"EXITED"` on every poll. -/
def envAllExited : Nat → Nat → QueryResult := fun _ _ => QueryResult.ok "EXITED"

/-- Environment in which instance 0 reports `"FATAL"` and every other
instance reports `"STARTING"`, on every poll. -/
def envFatalStarting : Nat → Nat → QueryResult := fun _ i =>
  if i = 0 then QueryResult.ok "FATAL" else QueryResult.ok "STARTING"

/-- Environment in which poll 0 hits a connectivity failure (`OSError`) and
every later poll reports `"RUNNING"` everywhere. -/
def envOneHiccup : Nat → Nat → QueryResult := fun p _ =>
  if p = 0 then QueryResult.osError else QueryResult.ok "RUNNING"

/-- Environment in which every query raises a non-`OSError` exception. -/
def envFault : Nat → Nat → QueryResult := fun _ _ => QueryResult.exn

/-- Environment in which every query raises `OSError`. -/
def envAllOsError : Nat → Nat → QueryResult := fun _ _ => QueryResult.osError

/-- C3: for every group spec, if a poll (here: the first poll whose queries
all complete, after `k` retried polls) finds any instance in
`[0, num_procs)` reporting `"FATAL"`, `wait_for_process` immediately raises
the `AutoscalerBootstrapException` message naming the group, with exactly
the `k` earlier sleeps and no further sleep or poll — it does not wait for
still-pending instances to resolve. -/
theorem wait_fatal_short_circuit (env : Nat → Nat → QueryResult)
    (process_name terminal_state : String) (num_procs k fuel : Nat)
    (hk : k < fuel)
    (hretry : ∀ j, j < k →
      classifyPoll env num_procs terminal_state j = PollClass.retry)
    (hfatal : classifyPoll env num_procs terminal_state k = PollClass.fatal) :
    (wait_for_process env process_name num_procs terminal_state fuel).1 =
        WaitResult.fatalExn ("Process " ++ process_name ++ " could not start; aborting") ∧
      ((wait_for_process env process_name num_procs terminal_state fuel).2).count
          WaitEvent.sleep = k := by
  have hd : classifyPoll env num_procs terminal_state (0 + k) ≠ PollClass.retry := by
    rw [Nat.zero_add, hfatal]
    simp
  have h := waitLoop_decisive env process_name num_procs terminal_state k 0 fuel hk
      (by intro j hj; rw [Nat.zero_add]; exact hretry j hj) hd
  rw [Nat.zero_add, hfatal] at h
  exact ⟨h.1, h.2⟩

/-- Witness for C3, Scenario B of the spec: two `run_signals` instances,
instance 0 reports `FATAL` and instance 1 `STARTING` on the first poll; the
wait fails at once, naming the group, with zero sleeps. -/
theorem wait_fatal_short_circuit_witness :
    (wait_for_process envFatalStarting "run_signals" 2 "RUNNING" 1).1 =
        WaitResult.fatalExn ("Process " ++ "run_signals" ++ " could not start; aborting") ∧
      ((wait_for_process envFatalStarting "run_signals" 2 "RUNNING" 1).2).count
          WaitEvent.sleep = 0 :=
  wait_fatal_short_circuit envFatalStarting "run_signals" "RUNNING" 2 0 1 (by decide)
    (fun j hj => absurd hj (Nat.not_lt_zero j)) (by decide)

/-- C5: `wait_for_process` returns successfully exactly when some poll it
reaches (all earlier polls having looped) observes every instance in the
terminal state; and when the very first poll does, it returns with no
intervening sleep.  The characterization holds for every fuel bound, i.e.
the retries are unbounded. -/
theorem wait_success_characterization (env : Nat → Nat → QueryResult)
    (process_name terminal_state : String) (num_procs fuel : Nat) :
    ((wait_for_process env process_name num_procs terminal_state fuel).1 =
        WaitResult.success ↔
      ∃ k, k < fuel ∧
        classifyPoll env num_procs terminal_state k = PollClass.done ∧
        ∀ j, j < k → classifyPoll env num_procs terminal_state j = PollClass.retry) ∧
    (0 < fuel → classifyPoll env num_procs terminal_state 0 = PollClass.done →
      ((wait_for_process env process_name num_procs terminal_state fuel).2).count
          WaitEvent.sleep = 0) := by
  constructor
  · have h := waitLoop_success_iff env process_name num_procs terminal_state fuel 0
    simpa [wait_for_process] using h
  · intro hf h0
    have hd := waitLoop_decisive env process_name num_procs terminal_state 0 0 fuel hf
        (fun j hj => absurd hj (Nat.not_lt_zero j))
        (by rw [Nat.add_zero, h0]; simp)
    exact hd.2

/-- Witness for C5, Scenario A of the spec: a 2-instance fetch group with
both instances `EXITED` on the first poll succeeds with zero sleeps. -/
theorem wait_success_characterization_witness :
    (wait_for_process envAllExited "fetch_signals" 2 "EXITED" 1).1 = WaitResult.success ∧
      ((wait_for_process envAllExited "fetch_signals" 2 "EXITED" 1).2).count
          WaitEvent.sleep = 0 :=
  ⟨(wait_success_characterization envAllExited "fetch_signals" "EXITED" 2 1).1.mpr
      ⟨0, by decide, by decide, fun j hj => absurd hj (Nat.not_lt_zero j)⟩,
    (wait_success_characterization envAllExited "fetch_signals" "EXITED" 2 1).2
      (by decide) (by decide)⟩

/-- C6: a connectivity failure (`OSError`) during a poll never makes
`wait_for_process` fail: for any `N` polls hitting `OSError` followed by a
poll seeing every instance terminal, the wait still completes successfully
(given fuel for the `N + 1` polls). -/
theorem wait_survives_connectivity_failures (env : Nat → Nat → QueryResult)
    (process_name terminal_state : String) (num_procs N fuel : Nat)
    (hconn : ∀ p, p < N → ∃ i, collectStates (env p) num_procs = PollResult.osError i)
    (hdone : classifyPoll env num_procs terminal_state N = PollClass.done)
    (hfuel : N < fuel) :
    (wait_for_process env process_name num_procs terminal_state fuel).1 =
      WaitResult.success := by
  apply (waitLoop_success_iff env process_name num_procs terminal_state fuel 0).2
  refine ⟨N, hfuel, by simpa using hdone, ?_⟩
  intro j hj
  obtain ⟨i, hi⟩ := hconn j hj
  rw [Nat.zero_add]
  exact classifyPoll_osError env num_procs terminal_state j i hi

/-- Witness for C6: one simulated transient failure (poll 0) followed by a
healthy `RUNNING` response; the wait completes successfully. -/
theorem wait_survives_connectivity_failures_witness :
    (wait_for_process envOneHiccup "run_signals" 1 "RUNNING" 2).1 = WaitResult.success :=
  wait_survives_connectivity_failures envOneHiccup "run_signals" "RUNNING" 1 1 2
    (by
      intro p hp
      have hp0 : p = 0 := by omega
      subst hp0
      exact ⟨0, by decide⟩)
    (by decide) (by decide)

/-- C8: every status query `wait_for_process` issues uses an identifier of
the form `processId process_name i` = `process_name:process_name_i` with
`i < num_procs`; and a poll whose queries all complete issues exactly one
query per instance index in `[0, num_procs)`, in order. -/
theorem wait_query_naming (env : Nat → Nat → QueryResult)
    (process_name terminal_state : String) (num_procs fuel : Nat) :
    (∀ pid, WaitEvent.query pid ∈
        (wait_for_process env process_name num_procs terminal_state fuel).2 →
      ∃ i, i < num_procs ∧ pid = processId process_name i) ∧
    (∀ poll states, collectStates (env poll) num_procs = PollResult.states states →
      pollEvents process_name num_procs (env poll) =
        (List.range num_procs).map (fun i => WaitEvent.query (processId process_name i))) := by
  constructor
  · intro pid h
    exact mem_query_waitLoop env process_name num_procs terminal_state fuel 0 pid h
  · intro poll states h
    simp [pollEvents, pollQueryCount, h]

/-- Witness for C8: on a healthy 2-instance fetch poll the issued queries
are exactly `fetch_signals:fetch_signals_0` and `fetch_signals:fetch_signals_1`. -/
theorem wait_query_naming_witness :
    (∃ i, i < 2 ∧ processId "fetch_signals" 0 = processId "fetch_signals" i) ∧
      pollEvents "fetch_signals" 2 (envAllExited 0) =
        (List.range 2).map (fun i => WaitEvent.query (processId "fetch_signals" i)) :=
  ⟨(wait_query_naming envAllExited "fetch_signals" "EXITED" 2 1).1
      (processId "fetch_signals" 0) (by decide),
    (wait_query_naming envAllExited "fetch_signals" "EXITED" 2 1).2
      0 ["EXITED", "EXITED"] (by decide)⟩

/-- C9: called with `num_procs = 0`, `wait_for_process` returns successfully
on the first loop iteration, issuing no status query and no sleep: the
comprehension over `range(0)` is empty, `any` over it is false and `all` is
vacuously true. -/
theorem wait_zero_instances (env : Nat → Nat → QueryResult)
    (process_name terminal_state : String) (fuel : Nat) (h : 0 < fuel) :
    wait_for_process env process_name 0 terminal_state fuel = (WaitResult.success, []) := by
  obtain ⟨f, rfl⟩ : ∃ f, fuel = f + 1 := ⟨fuel - 1, by omega⟩
  rfl

/-- Witness for C9: even with every query set to raise `OSError`, a
zero-instance wait returns at once — no query is ever issued. -/
theorem wait_zero_instances_witness :
    wait_for_process envAllOsError "fetch_signals" 0 "EXITED" 1 =
      (WaitResult.success, []) :=
  wait_zero_instances envAllOsError "fetch_signals" "EXITED" 1 (by decide)

/-- C10: `wait_for_process` absorbs and retries exactly the `OSError`
outcomes (first conjunct: an `OSError` poll is classified as a retry); a
query raising any other exception is not retried — it propagates out of the
wait immediately (after the `k` earlier retried polls, with no further
sleep). -/
theorem wait_other_exception_propagates (env : Nat → Nat → QueryResult)
    (process_name terminal_state : String) (num_procs k fuel : Nat)
    (hk : k < fuel)
    (hretry : ∀ j, j < k →
      classifyPoll env num_procs terminal_state j = PollClass.retry)
    (hexn : classifyPoll env num_procs terminal_state k = PollClass.exn) :
    (∀ p i, collectStates (env p) num_procs = PollResult.osError i →
      classifyPoll env num_procs terminal_state p = PollClass.retry) ∧
    (wait_for_process env process_name num_procs terminal_state fuel).1 =
        WaitResult.propagate ∧
      ((wait_for_process env process_name num_procs terminal_state fuel).2).count
          WaitEvent.sleep = k := by
  have hd : classifyPoll env num_procs terminal_state (0 + k) ≠ PollClass.retry := by
    rw [Nat.zero_add, hexn]
    simp
  have h := waitLoop_decisive env process_name num_procs terminal_state k 0 fuel hk
      (by intro j hj; rw [Nat.zero_add]; exact hretry j hj) hd
  rw [Nat.zero_add, hexn] at h
  exact ⟨fun p i hi => classifyPoll_osError env num_procs terminal_state p i hi,
    h.1, h.2⟩

/-- Witness for C10: a non-`OSError` fault on the first poll propagates at
once, with zero sleeps. -/
theorem wait_other_exception_propagates_witness :
    (∀ p i, collectStates (envFault p) 1 = PollResult.osError i →
      classifyPoll envFault 1 "RUNNING" p = PollClass.retry) ∧
    (wait_for_process envFault "run_signals" 1 "RUNNING" 1).1 = WaitResult.propagate ∧
      ((wait_for_process envFault "run_signals" 1 "RUNNING" 1).2).count
          WaitEvent.sleep = 0 :=
  wait_other_exception_propagates envFault "run_signals" "RUNNING" 1 0 1 (by decide)
    (fun j hj => absurd hj (Nat.not_lt_zero j)) (by decide)

/-- Every region of the `try` block completes normally: the startup sequence
succeeds and the steady-state loop exits on its own condition. -/
def envAllOk : RunEnv :=
  ⟨PhaseRes.ok, PhaseRes.ok, PhaseRes.ok, PhaseRes.ok, PhaseRes.ok⟩

/-- The fetch-signals stage wait raises `AutoscalerBootstrapException`. -/
def envFetchFatal : RunEnv :=
  ⟨PhaseRes.raisesFatal, PhaseRes.ok, PhaseRes.ok, PhaseRes.ok, PhaseRes.ok⟩

/-- A `KeyboardInterrupt` arrives during the fetch-signals stage wait,
before the steady-state poll loop is ever reached. -/
def envFetchInterrupt : RunEnv :=
  ⟨PhaseRes.interrupted, PhaseRes.ok, PhaseRes.ok, PhaseRes.ok, PhaseRes.ok⟩

/-- A connectivity failure (`OSError`) hits the unguarded
`getProcessInfo("autoscaler")` call of the steady-state loop. -/
def envSteadyOsError : RunEnv :=
  ⟨PhaseRes.ok, PhaseRes.ok, PhaseRes.ok, PhaseRes.ok, PhaseRes.raisesOther⟩

/-- C1 counterexample: when the fetch-signals stage wait raises a
fatal-state error, `run` propagates the exception out of the `with` block,
and the `supervisord_proc.wait()` line after that block never executes — the
supervision daemon's exit is awaited zero times on this exit path, not
exactly once. -/
theorem run_daemon_wait_skipped_on_error :
    (runBatch envFetchFatal).1 = RunResult.raised Exc.fatal ∧
      ((runBatch envFetchFatal).2).count RunEvent.daemonWait = 0 := by
  decide

/-- C1 (amended): `run` awaits the supervision daemon subprocess's exit
exactly once on the exit paths that return normally — the normal
steady-state loop exit and a caught `KeyboardInterrupt` — and zero times on
every exit path that propagates an exception (the `wait()` stands after the
`with` block, not in the `finally` clause). -/
theorem run_daemon_wait_iff_normal_return (env : RunEnv) :
    ((runBatch env).2).count RunEvent.daemonWait =
      (if (runBatch env).1 = RunResult.normal then 1 else 0) := by
  obtain ⟨a, b, c, d, e⟩ := env
  cases a <;> cases b <;> cases c <;> cases d <;> cases e <;> rfl

/-- C2 counterexample: a `KeyboardInterrupt` that arrives during the
fetch-signals stage wait — the steady-state (`Running`) poll loop is never
even entered, as the trace shows — still makes `run` skip the
`rpc.supervisor.shutdown()` call, although the claim requires every exit not
caused by an interrupt *during the Running poll loop* to issue it once. -/
theorem run_shutdown_skipped_on_early_interrupt :
    RunEvent.steadyPoll ∉ (runBatch envFetchInterrupt).2 ∧
      ((runBatch envFetchInterrupt).2).count RunEvent.shutdown = 0 := by
  decide

/-- C2 (amended): `rpc.supervisor.shutdown()` is called exactly once on
every exit path of `run` except those where a `KeyboardInterrupt` was raised
anywhere inside the `try` block — during any stage wait, start call, or the
steady-state loop — in which case it is called zero times; in particular it
is never called more than once. -/
theorem run_shutdown_iff_no_interrupt (env : RunEnv) :
    ((runBatch env).2).count RunEvent.shutdown =
      (if (tryBlock env).2 = some Exc.interrupt then 0 else 1) := by
  obtain ⟨a, b, c, d, e⟩ := env
  cases a <;> cases b <;> cases c <;> cases d <;> cases e <;> rfl

/-- C4: in every execution of `run`, the `startProcessGroup("run_signals")`
command is issued only after the fetch-signals wait (terminal state
`EXITED`) has returned successfully, and the `startProcess("autoscaler")`
command only after the run-signals wait (terminal state `RUNNING`) has
returned successfully: the successful-wait event occurs strictly before the
start command in the trace. -/
theorem run_start_order (env : RunEnv) :
    (RunEvent.startGroup "run_signals" ∈ (runBatch env).2 →
      RunEvent.waitDone "fetch_signals" "EXITED" ∈
        ((runBatch env).2.takeWhile (fun e => e != RunEvent.startGroup "run_signals"))) ∧
    (RunEvent.startProcess "autoscaler" ∈ (runBatch env).2 →
      RunEvent.waitDone "run_signals" "RUNNING" ∈
        ((runBatch env).2.takeWhile (fun e => e != RunEvent.startProcess "autoscaler"))) := by
  obtain ⟨a, b, c, d, e⟩ := env
  cases a <;> cases b <;> cases c <;> cases d <;> cases e <;> decide

/-- Witness for C4: in the all-successful run, both ordering facts hold of
the concrete trace. -/
theorem run_start_order_witness :
    RunEvent.waitDone "fetch_signals" "EXITED" ∈
        ((runBatch envAllOk).2.takeWhile (fun e => e != RunEvent.startGroup "run_signals")) ∧
      RunEvent.waitDone "run_signals" "RUNNING" ∈
        ((runBatch envAllOk).2.takeWhile (fun e => e != RunEvent.startProcess "autoscaler")) :=
  ⟨(run_start_order envAllOk).1 (by decide), (run_start_order envAllOk).2 (by decide)⟩

/-- C7 counterexample: with `self.running` true and the first
`getProcessInfo("autoscaler")` call failing at the transport level
(`OSError`), the steady-state loop — which has no exception handler —
propagates the error, and `run` surfaces it to the caller as
`RunResult.raised Exc.other`: a connectivity error *is* surfaced as an
orchestration failure on this code path. -/
theorem run_surfaces_steady_loop_osError :
    steadyStateLoop (fun _ => true) (fun _ => QueryResult.osError) 0 1 =
        some PhaseRes.raisesOther ∧
      (runBatch envSteadyOsError).1 = RunResult.raised Exc.other := by
  decide

/-- C7 (amended): connectivity (`OSError`) failures are absorbed only inside
`wait_for_process`: if every poll hits one, the wait keeps retrying and
never returns an error (first conjunct); but an `OSError` raised by the
steady-state autoscaler poll in `run` is not caught and propagates to the
caller — after `shutdown()` still runs in the `finally` clause (second
conjunct). -/
theorem connectivity_error_surfacing (env : Nat → Nat → QueryResult)
    (process_name terminal_state : String) (num_procs fuel : Nat)
    (hconn : ∀ p, ∃ i, collectStates (env p) num_procs = PollResult.osError i) :
    (wait_for_process env process_name num_procs terminal_state fuel).1 =
        WaitResult.fuelExhausted ∧
      ∀ renv : RunEnv, renv.fetchWait = PhaseRes.ok → renv.startRun = PhaseRes.ok →
        renv.runWait = PhaseRes.ok → renv.startAuto = PhaseRes.ok →
        renv.steady = PhaseRes.raisesOther →
        (runBatch renv).1 = RunResult.raised Exc.other ∧
          ((runBatch renv).2).count RunEvent.shutdown = 1 := by
  constructor
  · apply waitLoop_all_retry
    intro p
    obtain ⟨i, hi⟩ := hconn p
    exact classifyPoll_osError env num_procs terminal_state p i hi
  · intro renv h1 h2 h3 h4 h5
    obtain ⟨a, b, c, d, e⟩ := renv
    dsimp only at h1 h2 h3 h4 h5
    subst h1; subst h2; subst h3; subst h4; subst h5
    exact ⟨rfl, rfl⟩

/-- Witness for C7 (amended): every poll of a 1-instance wait hits an
`OSError`; the wait is still retrying after 5 polls, and the steady-loop
`OSError` run surfaces the error while issuing `shutdown()` once. -/
theorem connectivity_error_surfacing_witness :
    (wait_for_process envAllOsError "run_signals" 1 "RUNNING" 5).1 =
        WaitResult.fuelExhausted ∧
      ∀ renv : RunEnv, renv.fetchWait = PhaseRes.ok → renv.startRun = PhaseRes.ok →
        renv.runWait = PhaseRes.ok → renv.startAuto = PhaseRes.ok →
        renv.steady = PhaseRes.raisesOther →
        (runBatch renv).1 = RunResult.raised Exc.other ∧
          ((runBatch renv).2).count RunEvent.shutdown = 1 :=
  connectivity_error_surfacing envAllOsError "run_signals" "RUNNING" 1 5
    (fun _ => ⟨0, rfl⟩)
